import Mathlib

/-!
Verification of the SuShe-Processor data aggregation pipeline.

This file gives a shallow embedding in Lean 4 of the data pipeline of
`src/main.py` (ingestion and merge, preprocessing and deduplication, year
validation, the statistics engine, and the user-compatibility engine) and
proves the specified properties about it.

Modelling conventions, fixed once for the whole file:

* pandas dataframes become Lean lists of records; pandas `groupby`,
  `merge`, `drop_duplicates` and `sort_values` become explicit list
  operations translated operation by operation from `preprocess_data`,
  `validate_year`, `calculate_statistics` and
  `create_user_compatibility_table`;
* the `pd.to_datetime(..., errors='coerce')` and
  `pd.to_numeric(..., errors='coerce')` coercions of `preprocess_data`
  (lines 494-498) are modelled by `Option`-typed fields on the already
  coerced record: an unparseable date / non-numeric rank or points is
  `none`;
* float arithmetic of the compatibility engine is idealised as exact
  arithmetic: rationals for the data, real numbers (with `Real.sqrt`)
  for the cosine similarities; pandas `.round(1)` is round-half-to-even
  at one decimal, as `np.round` specifies;
* the semicolon-joined `contributors` display string of
  `preprocess_data` is carried alongside the structured
  `(username, rank)` list it serialises; the compatibility engine's
  re-parse of that string (`extract_users_and_genres`) is modelled as
  reading the structured list back;
* image resizing (`resize_image`) is a passthrough external utility and
  the `cover_image` column is not modelled; the `rating` / `comments`
  columns are dropped by `preprocess_data` before anything reads them
  and are likewise not modelled.
-/

namespace SuShe

/-- A parsed release date, the year/month part of the `pd.to_datetime`
result that `preprocess_data` derives `year` and `month` from. -/
structure RDate where
  year : Int
  month : Int
deriving DecidableEq, Repr

/-- One album submission row of the combined dataframe, after the type
coercions at lines 494-498 of `main.py`: `release_date`, `rank` and
`points` are nullable (`errors='coerce'`). The `username` column is the
one attached during ingestion. -/
structure Submission where
  album : String
  artist : String
  country : String
  username : String
  releaseDate : Option RDate
  rank : Option Int
  points : Option Int
  genre1 : Option String
  genre2 : Option String
deriving DecidableEq, Repr

/-- One row of the deduplicated table produced by `preprocess_data`:
the representative submission's descriptive fields plus the aggregated
columns `total_points`, `contributors`, `year`, `month`, `row_number`.
`contribs` is the structured (username, rank) list that the
`contributors` string serialises. -/
structure URow where
  album : String
  artist : String
  country : String
  username : String
  releaseDate : Option RDate
  rank : Option Int
  points : Option Int
  genre1 : Option String
  genre2 : Option String
  totalPoints : Int
  contributors : String
  contribs : List (String × Int)
  year : Option Int
  month : Option Int
  rowNumber : Nat
deriving DecidableEq, Repr

/-- `df.groupby('album')['points'].sum()` at line 505 of `main.py`,
evaluated at one album: the sum of `points` over every submission of
that album, with nulls skipped (equivalently: treated as 0). -/
def totalPointsFor (subs : List Submission) (a : String) : Int :=
  ((subs.filter (fun s => s.album = a)).map (fun s => s.points.getD 0)).sum

/-- The contributor (username, rank) pairs of one album: every
submission of the album, in concatenation order, whose rank is
non-null (line 513 of `main.py`, `pd.notnull(r)`). -/
def contribPairs (subs : List Submission) (a : String) : List (String × Int) :=
  (subs.filter (fun s => s.album = a)).filterMap
    (fun s => s.rank.map (fun r => (s.username, r)))

/-- The semicolon-joined contributors display string built at
lines 512-514 of `main.py`. -/
def contribString (subs : List Submission) (a : String) : String :=
  String.intercalate "; "
    ((contribPairs subs a).map (fun p => p.1 ++ " (" ++ toString p.2 ++ ")"))

/-- `df_agg.drop_duplicates(subset=['album'])` at line 509 of
`main.py`, with an accumulator of album keys already seen: keep the
first submission of each distinct album string, in concatenation
order. -/
def firstOccurrencesAux (seen : List String) : List Submission → List Submission
  | [] => []
  | s :: rest =>
    if s.album ∈ seen then firstOccurrencesAux seen rest
    else s :: firstOccurrencesAux (s.album :: seen) rest

/-- `df_agg.drop_duplicates(subset=['album'])` at line 509 of
`main.py`: keep the first submission of each distinct album string, in
concatenation order. -/
def firstOccurrences (l : List Submission) : List Submission :=
  firstOccurrencesAux [] l

/-- Build the unified row of a representative submission: descriptive
fields from the representative, aggregates from all submissions of the
album (lines 505-520 of `main.py`). `row_number` is assigned later. -/
def mkURow (subs : List Submission) (s : Submission) : URow :=
  { album := s.album
    artist := s.artist
    country := s.country
    username := s.username
    releaseDate := s.releaseDate
    rank := s.rank
    points := s.points
    genre1 := s.genre1
    genre2 := s.genre2
    totalPoints := totalPointsFor subs s.album
    contributors := contribString subs s.album
    contribs := contribPairs subs s.album
    year := s.releaseDate.map (fun d => d.year)
    month := s.releaseDate.map (fun d => d.month)
    rowNumber := 0 }

/-- The deduplicated table before sorting: one `URow` per distinct
album string, in concatenation order of the representative. -/
def unifiedRows (subs : List Submission) : List URow :=
  (firstOccurrences subs).map (mkURow subs)

/-- The sort relation of
`df_unique.sort_values(by='total_points', ascending=False)` at
line 516 of `main.py`: descending on `total_points`. `sort_values` is
called with its default `kind='quicksort'`, which pandas documents as
not stable, so the code guarantees no particular order among rows with
tied `total_points`; the model determinizes the tie order as a stable
insertion sort, and no conclusion proved below about the sorted table
depends on that tie order (all are invariant under permuting tied
rows). -/
def rowLE (x y : URow) : Prop :=
  y.totalPoints ≤ x.totalPoints

instance : DecidableRel rowLE :=
  fun x y => (inferInstance : Decidable (y.totalPoints ≤ x.totalPoints))

instance : IsTotal URow rowLE :=
  ⟨fun x y => Int.le_total y.totalPoints x.totalPoints⟩

instance : IsTrans URow rowLE :=
  ⟨fun _ _ _ h1 h2 => le_trans h2 h1⟩

/-- `df_unique["row_number"] = df_unique.index + 1` at line 524 of
`main.py`: assign consecutive row numbers starting from `n`. -/
def numberRows (n : Nat) : List URow → List URow
  | [] => []
  | r :: rs => { r with rowNumber := n } :: numberRows (n + 1) rs

/-- The whole of `preprocess_data` (lines 477-526 of `main.py`) on the
already type-coerced combined table: aggregate points per album,
deduplicate keeping the first submission, attach contributors, sort by
`total_points` descending (tie order determinized as noted at
`rowLE`), and assign 1-based row numbers. -/
def preprocess (subs : List Submission) : List URow :=
  numberRows 1 (List.insertionSort rowLE (unifiedRows subs))

/-- The year filter applied after validation at line 1406 of `main.py`:
`df_processed[df_processed['year'] == current_year]` (rows with null
year never satisfy the comparison). -/
def filterYear (y : Int) (t : List URow) : List URow :=
  t.filter (fun r => r.year = some y)

/-! ### Ingestion and merge (`load_and_combine_data`, lines 438-475) -/

/-- The top-level shape of one selected file's content after
`json.load`: a parse failure, a parsed non-list value, or a parsed list
of album records. -/
inductive JsonShape where
  | malformed
  | nonList
  | records (rs : List Submission)
deriving DecidableEq, Repr

/-- One entry of `self.loaded_files`: a file path, the username typed
next to it (already stripped), and the file's content. -/
structure FileInput where
  name : String
  username : String
  content : JsonShape
deriving DecidableEq, Repr

/-- The fatal conditions surfaced by the pipeline before a report is
produced. -/
inductive PipelineError where
  | emptyUsername (file : String)
  | malformedJson (file : String)
  | nonListJson (file : String)
  | noData
  | yearMismatch (years : List Int)
  | noValidYear
deriving DecidableEq, Repr

/-- The per-file loop of `load_and_combine_data` (lines 451-469):
require a non-empty username, require the content to be a JSON list,
overwrite each record's `username`, and concatenate in file order. Any
failure aborts the whole loop. -/
def loadFiles : List FileInput → Except PipelineError (List Submission)
  | [] => .ok []
  | f :: fs =>
    if f.username = "" then .error (.emptyUsername f.name)
    else
      match f.content with
      | .malformed => .error (.malformedJson f.name)
      | .nonList => .error (.nonListJson f.name)
      | .records rs =>
        match loadFiles fs with
        | .error e => .error e
        | .ok rest => .ok ((rs.map (fun s => { s with username := f.username })) ++ rest)

/-- `load_and_combine_data` (lines 438-475): run the per-file loop and
reject an empty combined dataset (lines 471-473). -/
def loadAndCombine (files : List FileInput) : Except PipelineError (List Submission) :=
  match loadFiles files with
  | .error e => .error e
  | .ok [] => .error .noData
  | .ok subs => .ok subs

/-! ### Year validation (`validate_year`, lines 528-547) -/

/-- `df['year'].dropna().unique()` at line 538 of `main.py`: distinct
non-null years in first-appearance order. -/
def distinctYears (t : List URow) : List Int :=
  (t.filterMap (fun r => r.year)).dedup

/-- `validate_year` (lines 528-547): more than one distinct year is a
year-mismatch error listing the years, exactly one is returned, zero is
a no-valid-year error. -/
def validateYear (t : List URow) : Except PipelineError Int :=
  match distinctYears t with
  | [] => .error .noValidYear
  | [y] => .ok y
  | ys => .error (.yearMismatch ys)

/-! ### Statistics engine (`calculate_statistics`, lines 549-582) -/

/-- Round half to even, as `np.round` specifies for the `.round(1)` and
`round(x, 1)` calls (idealised to exact rational arithmetic). -/
def rhe (x : ℚ) : Int :=
  if x - ⌊x⌋ < 1/2 then ⌊x⌋
  else if 1/2 < x - ⌊x⌋ then ⌊x⌋ + 1
  else if Even ⌊x⌋ then ⌊x⌋ else ⌊x⌋ + 1

/-- Rounding to one decimal place. -/
def round1 (x : ℚ) : ℚ :=
  (rhe (10 * x) : ℚ) / 10

/-- `pd.Series.value_counts()`: the distinct non-null values of a list
in first-appearance order, paired with their multiplicities, sorted by
count descending (stably). -/
def valueCounts (l : List String) : List (String × Nat) :=
  List.insertionSort (fun p q : String × Nat => q.2 ≤ p.2)
    (l.dedup.map (fun v => (v, l.count v)))

/-- The pooled genre value list that
`pd.concat([df['genre_1'], df['genre_2']])` at line 568 builds: the
non-null entries of both genre slots, `genre_1` column first.
`value_counts` skips nulls; no other value is excluded here. -/
def pooledGenres (t : List URow) : List String :=
  t.filterMap (fun r => r.genre1) ++ t.filterMap (fun r => r.genre2)

/-- The genre frequency table of `calculate_statistics`
(line 568 of `main.py`). -/
def genreCounts (t : List URow) : List (String × Nat) :=
  valueCounts (pooledGenres t)

/-- The scalar statistics of `calculate_statistics`. -/
structure Stats where
  totalAlbums : Nat
  uniqueArtists : Nat
  countries : Nat
  uniqueUsers : Nat
  uniqueGenres : Nat
  topCountry : String
  avgPoints : ℚ
  topGenre : String
deriving DecidableEq, Repr

/-- `calculate_statistics` (lines 549-582 of `main.py`), computed on
the year-filtered deduplicated table: row count, `nunique` of the
`artist`, `country` and `username` columns, distinct-genre count and
most frequent genre from the pooled genre counts, most frequent
country, and the mean of `total_points` rounded to one decimal. -/
def calculateStatistics (t : List URow) : Stats :=
  { totalAlbums := t.length
    uniqueArtists := ((t.map (fun r => r.artist)).toFinset).card
    countries := ((t.map (fun r => r.country)).toFinset).card
    uniqueUsers := ((t.map (fun r => r.username)).toFinset).card
    uniqueGenres := (((genreCounts t).map (fun p => p.1)).toFinset).card
    topCountry :=
      match valueCounts (t.map (fun r => r.country)) with
      | [] => "N/A"
      | p :: _ => p.1
    avgPoints :=
      if 0 < t.length then
        round1 (((t.map (fun r => r.totalPoints)).sum : ℚ) / (t.length : ℚ))
      else 0
    topGenre :=
      match genreCounts t with
      | [] => "N/A"
      | p :: _ => p.1 }

/-! ### The report-generation workflow (`generate_html`, lines 1384-1421) -/

/-- The data a generated report is built from: the validated year, the
year-filtered table, its statistics and its genre frequency table. -/
structure Report where
  year : Int
  table : List URow
  stats : Stats
  gCounts : List (String × Nat)
deriving DecidableEq, Repr

/-- The data-pipeline part of `generate_html` (lines 1384-1415 of
`main.py`): load and combine, preprocess, validate the year, filter to
the validated year, then compute statistics for the report. Any error
returns before a report exists. -/
def generateReport (files : List FileInput) : Except PipelineError Report :=
  match loadAndCombine files with
  | .error e => .error e
  | .ok subs =>
    let table := preprocess subs
    match validateYear table with
    | .error e => .error e
    | .ok y =>
      let filtered := filterYear y table
      .ok { year := y
            table := filtered
            stats := calculateStatistics filtered
            gCounts := genreCounts filtered }

/-! ### User compatibility engine (`create_user_compatibility_table`,
lines 752-1097) -/

/-- The placeholder genre sentinels excluded from all compatibility
calculations (line 766 of `main.py`). -/
def PLACEHOLDER_GENRES : List String :=
  ["Genre 1", "Genre 2"]

/-- The valid, non-placeholder genre tags of one row
(lines 773-778 of `main.py`): `genre_1` then `genre_2`, kept when
non-null and not a placeholder. -/
def slotGenre (g : Option String) : List String :=
  match g with
  | none => []
  | some v => if v ∈ PLACEHOLDER_GENRES then [] else [v]

/-- Both genre slots of a row, pooled. -/
def rowGenres (r : URow) : List String :=
  slotGenre r.genre1 ++ slotGenre r.genre2

/-- The (user, genre, rank) tuples one row contributes
(lines 795-800 of `main.py`): one per (contributor, valid genre). -/
def rowGenreTuples (r : URow) : List (String × String × Int) :=
  r.contribs.flatMap (fun c => (rowGenres r).map (fun g => (c.1, g, c.2)))

/-- The (user, artist) tuples one row contributes (line 802 of
`main.py`): one per contributor, regardless of genre validity. -/
def rowArtistTuples (r : URow) : List (String × String) :=
  r.contribs.map (fun c => (c.1, r.artist))

/-- All collected user-genre-rank tuples (lines 807-812). -/
def userGenrePairs (df : List URow) : List (String × String × Int) :=
  df.flatMap rowGenreTuples

/-- All collected user-artist tuples (lines 807-812). -/
def userArtistPairs (df : List URow) : List (String × String) :=
  df.flatMap rowArtistTuples

/-- `genre_df['rank'].max()` at line 824: the maximum rank over all
collected genre tuples (0 when there are none; `pairScores` is only
reached with at least one tuple). -/
def maxRank (df : List URow) : Int :=
  match (userGenrePairs df).map (fun t => t.2.2) with
  | [] => 0
  | r :: rs => rs.foldl max r

/-- The rank weight of line 825:
`(max_rank - rank + 1) / max_rank` (in ℚ; for well-formed 1-based
ranks the denominator is positive). -/
def rankWeight (df : List URow) (k : Int) : ℚ :=
  ((maxRank df : ℚ) - (k : ℚ) + 1) / (maxRank df : ℚ)

/-- The `count` aggregate of the (user, genre) group (line 829). -/
def gCount (df : List URow) (u g : String) : Nat :=
  ((userGenrePairs df).filter (fun t => t.1 = u ∧ t.2.1 = g)).length

/-- The `weighted_count` aggregate of the (user, genre) group
(line 830): the sum of the rank weights of the group's tuples. -/
def gWeightedCount (df : List URow) (u g : String) : ℚ :=
  (((userGenrePairs df).filter (fun t => t.1 = u ∧ t.2.1 = g)).map
    (fun t => rankWeight df t.2.2)).sum

/-- The user's `total` (lines 834-837): the number of genre tuples the
user contributed (the sum of the user's per-genre counts). -/
def gTotal (df : List URow) (u : String) : Nat :=
  ((userGenrePairs df).filter (fun t => t.1 = u)).length

/-- The user's `weighted_total` (lines 834-837): the sum of the rank
weights of all the user's genre tuples. -/
def gWeightedTotal (df : List URow) (u : String) : ℚ :=
  (((userGenrePairs df).filter (fun t => t.1 = u)).map
    (fun t => rankWeight df t.2.2)).sum

/-- The `percentage` pivot entry (lines 843, 890-895):
`count / total * 100` rounded to one decimal for the user's tagged
genres, `fill_value=0` elsewhere. -/
def pct (df : List URow) (u g : String) : ℚ :=
  if 0 < gCount df u g then
    round1 ((gCount df u g : ℚ) / (gTotal df u : ℚ) * 100)
  else 0

/-- The `weighted_percentage` pivot entry (lines 844, 897-902). -/
def wpct (df : List URow) (u g : String) : ℚ :=
  if 0 < gCount df u g then
    round1 (gWeightedCount df u g / gWeightedTotal df u * 100)
  else 0

/-- The genre column set of the pivot tables: every genre occurring in
some collected tuple. -/
def genreAxis (df : List URow) : Finset String :=
  ((userGenrePairs df).map (fun t => t.2.1)).toFinset

/-- The pooled non-placeholder genre values of lines 848-850:
`pd.concat([df['genre_1'].dropna(), df['genre_2'].dropna()])` with the
placeholder genres filtered out. -/
def pooledNP (df : List URow) : List String :=
  (df.filterMap (fun r => r.genre1) ++ df.filterMap (fun r => r.genre2)).filter
    (fun g => ¬ g ∈ PLACEHOLDER_GENRES)

/-- The `valid_genres` set of line 856: non-placeholder genres whose
pooled occurrence count is at least 2. -/
def validGenres (df : List URow) : Finset String :=
  (pooledNP df).toFinset.filter (fun g => 1 < (pooledNP df).count g)

/-- The set of genres a user has tagged (lines 864-867). -/
def userGenreSet (df : List URow) (u : String) : Finset String :=
  (((userGenrePairs df).filter (fun t => t.1 = u)).map (fun t => t.2.1)).toFinset

/-- The user's avoided set (lines 870-874): valid genres the user never
tagged. -/
def avoided (df : List URow) (u : String) : Finset String :=
  validGenres df \ userGenreSet df u

/-- The user's artist set (lines 882-887). -/
def userArtists (df : List URow) (u : String) : Finset String :=
  (((userArtistPairs df).filter (fun t => t.1 = u)).map (fun t => t.2)).toFinset

/-- Lexicographic comparison of character lists by code point, the
order Python's `sorted` uses on strings. -/
def charListLe : List Char → List Char → Bool
  | [], _ => true
  | _ :: _, [] => false
  | c :: cs, d :: ds =>
    if c.toNat < d.toNat then true
    else if d.toNat < c.toNat then false
    else charListLe cs ds

/-- Code-point lexicographic order on strings. -/
def strLe (a b : String) : Prop :=
  charListLe a.data b.data = true

instance : DecidableRel strLe :=
  fun a b => (inferInstance : Decidable (charListLe a.data b.data = true))

/-- The pivot-table index, `users = sorted(genre_pivot_table.index)`
(line 906): the users occurring in the genre tuples, sorted. -/
def usersOf (df : List URow) : List String :=
  List.insertionSort strLe (((userGenrePairs df).map (fun t => t.1)).dedup)

/-- The `i < j` double loop over the sorted user list
(lines 908-910). -/
def userPairsOf : List String → List (String × String)
  | [] => []
  | u :: rest => rest.map (fun v => (u, v)) ++ userPairsOf rest

/-- The genre-absence Jaccard score (lines 939-944): 0 unless the valid
set is non-empty and both users avoid at least one genre, else
`|intersection| / max(1, |union|)`. -/
def absenceSimOf (df : List URow) (u1 u2 : String) : ℚ :=
  if ¬ validGenres df = ∅ ∧ 0 < (avoided df u1).card ∧ 0 < (avoided df u2).card then
    (((avoided df u1) ∩ (avoided df u2)).card : ℚ) /
      ((max 1 ((avoided df u1) ∪ (avoided df u2)).card : Nat) : ℚ)
  else 0

/-- The artist-overlap Jaccard score (lines 958-961): 0 when both
artist sets are empty, else `|intersection| / max(1, |union|)`. -/
def artistSimOf (df : List URow) (u1 u2 : String) : ℚ :=
  if ¬ userArtists df u1 = ∅ ∨ ¬ userArtists df u2 = ∅ then
    (((userArtists df u1) ∩ (userArtists df u2)).card : ℚ) /
      ((max 1 ((userArtists df u1) ∪ (userArtists df u2)).card : Nat) : ℚ)
  else 0

/-- The rational data of one scored user pair: the cosine numerators
and squared norms of the two percentage vectors (the square roots are
taken in `ℝ` by the interpretation functions below), the two Jaccard
scores, and the shared-avoidance and shared-artist records of
lines 982-1011. -/
structure PairScore where
  user1 : String
  user2 : String
  gDot : ℚ
  gS1 : ℚ
  gS2 : ℚ
  wDot : ℚ
  wS1 : ℚ
  wS2 : ℚ
  absence : ℚ
  artist : ℚ
  sharedAvoided : List String
  sharedArtistCount : Nat
deriving DecidableEq, Repr

/-- Score one user pair (the body of the double loop,
lines 911-1024): dot products and squared norms over the genre axis for
the raw and the rank-weighted percentage vectors, the two Jaccard
scores, the sorted shared avoided genres, and the shared artist
count. -/
def mkPair (df : List URow) (u1 u2 : String) : PairScore :=
  { user1 := u1
    user2 := u2
    gDot := ∑ g ∈ genreAxis df, pct df u1 g * pct df u2 g
    gS1 := ∑ g ∈ genreAxis df, pct df u1 g * pct df u1 g
    gS2 := ∑ g ∈ genreAxis df, pct df u2 g * pct df u2 g
    wDot := ∑ g ∈ genreAxis df, wpct df u1 g * wpct df u2 g
    wS1 := ∑ g ∈ genreAxis df, wpct df u1 g * wpct df u1 g
    wS2 := ∑ g ∈ genreAxis df, wpct df u2 g * wpct df u2 g
    absence := absenceSimOf df u1 u2
    artist := artistSimOf df u1 u2
    sharedAvoided := ((avoided df u1) ∩ (avoided df u2)).sort (fun a b => a ≤ b)
    sharedArtistCount := ((userArtists df u1) ∩ (userArtists df u2)).card }

/-- All scored pairs, in loop order. The final display sort of
line 1027 (by combined score descending) is presentation-only and not
modelled: no claim depends on the display order. -/
def pairScores (df : List URow) : List PairScore :=
  (userPairsOf (usersOf df)).map (fun p => mkPair df p.1 p.2)

/-- The compatibility computation with its insufficient-data early
return (lines 815-816): `none` when no genre tuples were collected. -/
def compatTable (df : List URow) : Option (List PairScore) :=
  if userGenrePairs df = [] then none else some (pairScores df)

/-- The guarded cosine-similarity interpretation shared by
`genre_similarity` and `weighted_similarity` (lines 915-933): 0 when
either norm is 0, else dot over the product of the norms. -/
noncomputable def cosInterp (d s1 s2 : ℚ) : ℝ :=
  if 0 < Real.sqrt (s1 : ℝ) ∧ 0 < Real.sqrt (s2 : ℝ) then
    (d : ℝ) / (Real.sqrt (s1 : ℝ) * Real.sqrt (s2 : ℝ))
  else 0

/-- `genre_similarity` of a scored pair (lines 911-921). -/
noncomputable def genreSimR (p : PairScore) : ℝ :=
  cosInterp p.gDot p.gS1 p.gS2

/-- `weighted_similarity` of a scored pair (lines 923-933). -/
noncomputable def weightedSimR (p : PairScore) : ℝ :=
  cosInterp p.wDot p.wS1 p.wS2

/-- `combined_similarity` (lines 963-980): a conditional weighted sum
of the four components. -/
noncomputable def combinedR (p : PairScore) : ℝ :=
  if p.absence < 1/10 ∧ 0 < p.artist then
    0.30 * genreSimR p + 0.40 * weightedSimR p
      + 0.05 * (p.absence : ℝ) + 0.25 * (p.artist : ℝ)
  else
    0.25 * genreSimR p + 0.35 * weightedSimR p
      + 0.20 * (p.absence : ℝ) + 0.20 * (p.artist : ℝ)

/-! ### Concrete inputs used by witnesses and counterexamples -/

/-- The two-user scenario of the specification: user A submits album X
with 10 points and rank 1, user B submits album X with 8 points and
rank 2. -/
def scnA : Submission :=
  { album := "X", artist := "P", country := "Norway", username := "A",
    releaseDate := some ⟨2023, 1⟩, rank := some 1, points := some 10,
    genre1 := some "Rock", genre2 := none }

/-- Second submission of the scenario. -/
def scnB : Submission :=
  { scnA with username := "B", rank := some 2, points := some 8 }

/-- The scenario's combined submission list. -/
def scnSubs : List Submission :=
  [scnA, scnB]

/-- A duplicate submission of album X with an unparseable release
date. -/
def c10B : Submission :=
  { scnA with username := "B", releaseDate := none, points := some 7 }

/-- The C10 witness input: album X submitted by A (dated 2023) and by B
(date unparseable). -/
def c10Subs : List Submission :=
  [scnA, c10B]

/-- A well-formed single input file for the C8 witness. -/
def c8File : FileInput :=
  { name := "a.json", username := "A", content := .records [scnA] }

/-- A malformed input file for the C9 witness. -/
def c9Bad : FileInput :=
  { name := "b.json", username := "B", content := .malformed }

/-- Look a genre up in a value-counts table (0 when absent). -/
def countOf (l : List (String × Nat)) (g : String) : Nat :=
  ((l.find? (fun p => p.1 = g)).map (fun p => p.2)).getD 0

/-- A row whose first genre slot holds the placeholder sentinel and
whose second holds a real genre. -/
def c6Row : URow :=
  { album := "X", artist := "P", country := "Norway", username := "A",
    releaseDate := some ⟨2023, 1⟩, rank := some 1, points := some 10,
    genre1 := some "Genre 1", genre2 := some "Rock", totalPoints := 10,
    contributors := "A (1)", contribs := [("A", 1)], year := some 2023,
    month := some 1, rowNumber := 1 }

/-- Table-level hypothesis: every rank recorded in `contribs` is a
well-formed 1-based rank, as the data model specifies. -/
def ranksWF (df : List URow) : Prop :=
  ∀ r ∈ df, ∀ c ∈ r.contribs, 1 ≤ c.2

/-- The single-album row that makes "ShoeGaze" count twice from one
album: both genre slots carry it. -/
def c3RowS : URow :=
  { album := "S", artist := "P", country := "Norway", username := "A",
    releaseDate := some ⟨2023, 1⟩, rank := some 1, points := some 10,
    genre1 := some "ShoeGaze", genre2 := some "ShoeGaze", totalPoints := 10,
    contributors := "A (1)", contribs := [("A", 1)], year := some 2023,
    month := some 1, rowNumber := 1 }

/-- A second album tagged only "Rock" by user B. -/
def c3RowR : URow :=
  { c3RowS with
    album := "R"
    username := "B"
    genre1 := some "Rock"
    genre2 := none
    contributors := "B (1)"
    contribs := [("B", 1)]
    rowNumber := 2 }

/-- The C3 counterexample table. -/
def c3Df : List URow :=
  [c3RowS, c3RowR]

/-- First row of the two-user witness table: user A's album X tagged
Rock. -/
def c45RowX : URow :=
  { album := "X", artist := "P", country := "Norway", username := "A",
    releaseDate := some ⟨2023, 1⟩, rank := some 1, points := some 10,
    genre1 := some "Rock", genre2 := none, totalPoints := 10,
    contributors := "A (1)", contribs := [("A", 1)], year := some 2023,
    month := some 1, rowNumber := 1 }

/-- Second row: user B's album Y by the same artist, also tagged
Rock. -/
def c45RowY : URow :=
  { c45RowX with
    album := "Y"
    username := "B"
    contributors := "B (1)"
    contribs := [("B", 1)]
    rowNumber := 2 }

/-- The two-user witness table for C4 and C5. -/
def c45Df : List URow :=
  [c45RowX, c45RowY]

/-- One single-submission album for the C2 failing input: album
names "A0".."A19", every submission worth 10 points. -/
def c2Album (i : Nat) : Submission :=
  { scnA with album := "A" ++ toString i, points := some 10, rank := some 1 }

/-- The C2 failing input: 20 distinct albums, one submission each, all
tied at 10 points, in concatenation order A0..A19 - a tie class larger
than numpy introsort's insertion-sort cutoff, so the code's default
quicksort decides their relative order, not the input order. -/
def c2Subs : List Submission :=
  (List.range 20).map c2Album

/-! ### Helper lemmas: row numbering -/

theorem numberRows_length (n : Nat) (l : List URow) :
    (numberRows n l).length = l.length := by
  induction l generalizing n with
  | nil => rfl
  | cons r rs ih => simp [numberRows, ih]

theorem numberRows_get (l : List URow) (n i : Nat) (hi : i < (numberRows n l).length)
    (hi2 : i < l.length) :
    (numberRows n l).get ⟨i, hi⟩ = { l.get ⟨i, hi2⟩ with rowNumber := n + i } := by
  induction l generalizing n i with
  | nil => cases hi2
  | cons r rs ih =>
    cases i with
    | zero => simp [numberRows]
    | succ j =>
      have hj2 : j < rs.length := Nat.lt_of_succ_lt_succ hi2
      have hj : j < (numberRows (n + 1) rs).length := by
        rw [numberRows_length]
        exact hj2
      have hstep : (numberRows n (r :: rs)).get ⟨j + 1, hi⟩
          = (numberRows (n + 1) rs).get ⟨j, hj⟩ := by
        simp [numberRows, List.get_cons_succ]
      rw [hstep, ih (n + 1) j hj hj2]
      have harith : n + 1 + j = n + (j + 1) := by omega
      rw [harith]
      simp [List.get_cons_succ]

theorem numberRows_countP (p : URow → Bool)
    (hp : ∀ r k, p { r with rowNumber := k } = p r) (n : Nat) (l : List URow) :
    (numberRows n l).countP p = l.countP p := by
  induction l generalizing n with
  | nil => rfl
  | cons r rs ih => simp [numberRows, List.countP_cons, ih, hp]

theorem numberRows_filter_map {β : Type} (f : URow → β) (p : URow → Bool)
    (hp : ∀ r k, p { r with rowNumber := k } = p r)
    (hf : ∀ r k, f { r with rowNumber := k } = f r) (n : Nat) (l : List URow) :
    ((numberRows n l).filter p).map f = (l.filter p).map f := by
  induction l generalizing n with
  | nil => rfl
  | cons r rs ih =>
    simp only [numberRows, List.filter_cons, hp]
    by_cases h : p r = true
    · simp [h, ih, hf]
    · simp [h, ih]

theorem mem_numberRows {r : URow} {n : Nat} {l : List URow} (h : r ∈ numberRows n l) :
    ∃ r₀ ∈ l, ∃ k, r = { r₀ with rowNumber := k } := by
  induction l generalizing n with
  | nil => cases h
  | cons s rs ih =>
    simp only [numberRows, List.mem_cons] at h
    rcases h with h | h
    · exact ⟨s, List.mem_cons_self s rs, n, h⟩
    · obtain ⟨r₀, hr₀, k, hk⟩ := ih h
      exact ⟨r₀, List.mem_cons_of_mem s hr₀, k, hk⟩

theorem mem_numberRows_of_mem {r₀ : URow} {l : List URow} (h : r₀ ∈ l) (n : Nat) :
    ∃ k, { r₀ with rowNumber := k } ∈ numberRows n l := by
  induction l generalizing n with
  | nil => cases h
  | cons s rs ih =>
    rcases List.mem_cons.mp h with h | h
    · exact ⟨n, by simp [numberRows, h]⟩
    · obtain ⟨k, hk⟩ := ih h (n + 1)
      exact ⟨k, List.mem_cons_of_mem _ hk⟩

/-! ### Helper lemmas: deduplication -/

theorem firstOccurrencesAux_spec {s : Submission} {seen : List String}
    {l : List Submission} (h : s ∈ firstOccurrencesAux seen l) :
    ¬ s.album ∈ seen ∧ l.find? (fun t => t.album = s.album) = some s := by
  induction l generalizing seen with
  | nil => cases h
  | cons t rest ih =>
    by_cases ht : t.album ∈ seen
    · rw [firstOccurrencesAux, if_pos ht] at h
      obtain ⟨hs, hfind⟩ := ih h
      have hne : ¬ t.album = s.album := fun he => hs (he ▸ ht)
      refine ⟨hs, ?_⟩
      rw [List.find?_cons_of_neg _ (by simpa using hne)]
      exact hfind
    · rw [firstOccurrencesAux, if_neg ht] at h
      rcases List.mem_cons.mp h with h | h
      · subst h
        exact ⟨ht, List.find?_cons_of_pos _ (by simp)⟩
      · obtain ⟨hs, hfind⟩ := ih h
        have hne : ¬ t.album = s.album := fun he =>
          hs (he ▸ List.mem_cons_self _ _)
        have hs2 : ¬ s.album ∈ seen := fun hc => hs (List.mem_cons_of_mem _ hc)
        refine ⟨hs2, ?_⟩
        rw [List.find?_cons_of_neg _ (by simpa using hne)]
        exact hfind

theorem mem_firstOccurrencesAux_of_find? {a : String} {s : Submission}
    {seen : List String} {l : List Submission} (ha : ¬ a ∈ seen)
    (h : l.find? (fun t => t.album = a) = some s) :
    s ∈ firstOccurrencesAux seen l := by
  induction l generalizing seen with
  | nil => cases h
  | cons t rest ih =>
    by_cases hta : t.album = a
    · rw [List.find?_cons_of_pos _ (by simpa using hta)] at h
      have hts : t = s := Option.some.inj h
      rw [firstOccurrencesAux, if_neg (fun hc => ha (hta ▸ hc))]
      exact hts ▸ List.mem_cons_self _ _
    · rw [List.find?_cons_of_neg _ (by simpa using hta)] at h
      rw [firstOccurrencesAux]
      by_cases ht : t.album ∈ seen
      · rw [if_pos ht]
        exact ih ha h
      · rw [if_neg ht]
        refine List.mem_cons_of_mem t (ih ?_ h)
        intro hc
        rcases List.mem_cons.mp hc with hc | hc
        · exact hta hc.symm
        · exact ha hc

theorem firstOccurrences_find? {s : Submission} {l : List Submission}
    (h : s ∈ firstOccurrences l) :
    l.find? (fun t => t.album = s.album) = some s :=
  (firstOccurrencesAux_spec h).2

theorem find?_mem_firstOccurrences {a : String} {s : Submission} {l : List Submission}
    (h : l.find? (fun t => t.album = a) = some s) : s ∈ firstOccurrences l :=
  mem_firstOccurrencesAux_of_find? (List.not_mem_nil a) h

theorem mem_of_mem_firstOccurrences {s : Submission} {l : List Submission}
    (h : s ∈ firstOccurrences l) : s ∈ l :=
  List.mem_of_find?_eq_some (firstOccurrences_find? h)

theorem countP_firstOccurrencesAux (l : List Submission) (seen : List String) (a : String) :
    (firstOccurrencesAux seen l).countP (fun s => s.album = a)
      = if a ∈ seen then 0
        else if l.any (fun s => s.album = a) then 1 else 0 := by
  induction l generalizing seen with
  | nil => simp [firstOccurrencesAux]
  | cons s rest ih =>
    by_cases hs : s.album ∈ seen
    · rw [firstOccurrencesAux, if_pos hs, ih]
      by_cases hmem : a ∈ seen
      · simp [hmem]
      · have hne : ¬ s.album = a := fun he => hmem (he ▸ hs)
        simp [hmem, List.any_cons, hne]
    · rw [firstOccurrencesAux, if_neg hs, List.countP_cons, ih]
      by_cases hsa : s.album = a
      · have hmem : ¬ a ∈ seen := fun hc => hs (hsa ▸ hc)
        have hmem2 : a ∈ s.album :: seen := hsa ▸ List.mem_cons_self _ _
        simp [hmem, hmem2, List.any_cons, hsa]
      · by_cases hmem : a ∈ seen
        · have hmem2 : a ∈ s.album :: seen := List.mem_cons_of_mem _ hmem
          simp [hmem, hmem2, hsa]
        · have hmem2 : ¬ a ∈ s.album :: seen := by
            intro hc
            rcases List.mem_cons.mp hc with hc | hc
            · exact hsa hc.symm
            · exact hmem hc
          simp [hmem, hmem2, List.any_cons, hsa]

theorem countP_firstOccurrences (l : List Submission) (a : String) :
    (firstOccurrences l).countP (fun s => s.album = a)
      = if l.any (fun s => s.album = a) then 1 else 0 := by
  rw [firstOccurrences, countP_firstOccurrencesAux]
  simp

/-! ### Helper lemmas: membership in the preprocessed table -/

theorem mem_preprocess {r : URow} {subs : List Submission} (h : r ∈ preprocess subs) :
    ∃ s ∈ firstOccurrences subs, ∃ k, r = { mkURow subs s with rowNumber := k } := by
  obtain ⟨r₀, hr₀, k, hk⟩ := mem_numberRows h
  have hmem : r₀ ∈ unifiedRows subs :=
    (List.perm_insertionSort rowLE (unifiedRows subs)).mem_iff.mp hr₀
  obtain ⟨s, hs, hmk⟩ := List.mem_map.mp hmem
  exact ⟨s, hs, k, by rw [hk, hmk]⟩

theorem rep_mem_preprocess {s : Submission} {subs : List Submission}
    (h : s ∈ firstOccurrences subs) :
    ∃ k, { mkURow subs s with rowNumber := k } ∈ preprocess subs := by
  have h1 : mkURow subs s ∈ unifiedRows subs := List.mem_map_of_mem (mkURow subs) h
  have h2 : mkURow subs s ∈ List.insertionSort rowLE (unifiedRows subs) :=
    (List.perm_insertionSort rowLE (unifiedRows subs)).mem_iff.mpr h1
  exact mem_numberRows_of_mem h2 1

theorem mem_preprocess_totalPoints {r : URow} {subs : List Submission} {a : String}
    (hr : r ∈ preprocess subs) (hra : r.album = a) :
    r.totalPoints = ((subs.filter (fun s => s.album = a)).map (fun s => s.points.getD 0)).sum := by
  obtain ⟨s, _, k, rfl⟩ := mem_preprocess hr
  have ha : s.album = a := hra
  calc ({ mkURow subs s with rowNumber := k } : URow).totalPoints
      = totalPointsFor subs s.album := rfl
    _ = _ := by rw [ha, totalPointsFor]

theorem countP_preprocess_album (subs : List Submission) (a : String) :
    (preprocess subs).countP (fun r => r.album = a)
      = if subs.any (fun s => s.album = a) then 1 else 0 := by
  have h1 : (preprocess subs).countP (fun r => r.album = a)
      = (List.insertionSort rowLE (unifiedRows subs)).countP (fun r => r.album = a) :=
    numberRows_countP (fun r => decide (r.album = a)) (fun r k => rfl) 1 _
  have h2 := (List.perm_insertionSort rowLE (unifiedRows subs)).countP_eq
    (fun r => decide (r.album = a))
  have h3 : (unifiedRows subs).countP (fun r => r.album = a)
      = (firstOccurrences subs).countP (fun s => s.album = a) := by
    unfold unifiedRows
    rw [List.countP_map]
    rfl
  rw [h1, h2, h3, countP_firstOccurrences]

/-! ### Claim C1 -/

/-- C1: after preprocessing and deduplication the output table contains
exactly one row per distinct album string of the input (and none for
absent albums), and that row's `total_points` is the sum of the
`points` fields over all submissions of that album across all users,
nulls counting as 0. -/
theorem c1_dedup_total_points (subs : List Submission) (a : String) :
    ((preprocess subs).countP (fun r => r.album = a)
        = if subs.any (fun s => s.album = a) then 1 else 0)
    ∧ ∀ r ∈ preprocess subs, r.album = a →
        r.totalPoints
          = ((subs.filter (fun s => s.album = a)).map (fun s => s.points.getD 0)).sum :=
  ⟨countP_preprocess_album subs a, fun _ hr hra => mem_preprocess_totalPoints hr hra⟩

/-- Witness for C1 on the specification's own scenario: one row for
album X and `total_points = 18`. -/
theorem c1_dedup_total_points_witness :
    ((preprocess scnSubs).countP (fun r => r.album = "X") = 1)
    ∧ ∀ r ∈ preprocess scnSubs, r.album = "X" → r.totalPoints = 18 := by
  have h := c1_dedup_total_points scnSubs "X"
  refine ⟨?_, ?_⟩
  · rw [h.1]
    decide
  · intro r hr hra
    rw [h.2 r hr hra]
    decide

/-! ### Claim C2 -/

/-- C2, evaluated at the failing input: all 20 deduplicated rows of
`c2Subs` tie at `total_points = 10` and receive row numbers 1..20, so
the entire output order of this table is tie-breaking - which the
code leaves to `sort_values`' default quicksort (documented by pandas
as not stable) instead of the concatenation order the specification
requires. -/
theorem c2_sort_stability_failing_input :
    (preprocess c2Subs).length = 20
    ∧ (∀ r ∈ preprocess c2Subs, r.totalPoints = 10)
    ∧ (preprocess c2Subs).map (fun r => r.rowNumber) = List.range' 1 20 := by
  refine ⟨by decide, by decide, by decide⟩

/-! ### Claim C10 -/

/-- C10: `total_points` of an album's unified row sums the points of
every submission of that album string, whatever their release dates;
the row's `year` (and hence survival under the year filter) is read
solely from the first-encountered (representative) submission, so the
duplicate submissions' points survive or fall with the representative
row. -/
theorem c10_rep_year_total (subs : List Submission) (a : String) (s₀ : Submission)
    (y : Int) (hfind : subs.find? (fun s => s.album = a) = some s₀) :
    ((∃ r ∈ filterYear y (preprocess subs), r.album = a)
      ↔ s₀.releaseDate.map (fun d => d.year) = some y)
    ∧ ∀ r ∈ filterYear y (preprocess subs), r.album = a →
        r.totalPoints
          = ((subs.filter (fun s => s.album = a)).map (fun s => s.points.getD 0)).sum := by
  have ha : s₀.album = a := by simpa using List.find?_some hfind
  constructor
  · constructor
    · rintro ⟨r, hr, hra⟩
      have hr2 : r ∈ preprocess subs := List.mem_of_mem_filter hr
      have hy : r.year = some y := by simpa using (List.mem_filter.mp hr).2
      obtain ⟨s, hs, k, rfl⟩ := mem_preprocess hr2
      have hsa : s.album = a := hra
      have hfind2 := firstOccurrences_find? hs
      rw [hsa] at hfind2
      have hss : s = s₀ := by
        rw [hfind2] at hfind
        exact Option.some.inj hfind
      have hyear : ({ mkURow subs s with rowNumber := k } : URow).year
          = s.releaseDate.map (fun d => d.year) := rfl
      rw [← hss]
      rw [hyear] at hy
      exact hy
    · intro hy
      have hs₀ : s₀ ∈ firstOccurrences subs := find?_mem_firstOccurrences hfind
      obtain ⟨k, hk⟩ := rep_mem_preprocess hs₀
      refine ⟨{ mkURow subs s₀ with rowNumber := k }, ?_, ha⟩
      refine List.mem_filter.mpr ⟨hk, ?_⟩
      simp only [decide_eq_true_eq]
      exact hy
  · intro r hr hra
    exact mem_preprocess_totalPoints (List.mem_of_mem_filter hr) hra

/-- Witness for C10: album X survives the 2023 filter on the strength
of A's representative date, and its row still counts B's undated 7
points: `total_points = 17`. -/
theorem c10_rep_year_total_witness :
    (∃ r ∈ filterYear 2023 (preprocess c10Subs), r.album = "X")
    ∧ ∀ r ∈ filterYear 2023 (preprocess c10Subs), r.album = "X" →
        r.totalPoints = 17 := by
  have h := c10_rep_year_total c10Subs "X" scnA 2023 (by decide)
  refine ⟨h.1.mpr (by decide), fun r hr hra => ?_⟩
  rw [h.2 r hr hra]
  decide

/-! ### Claim C8 -/

/-- C8: year validation is a hard gate. With more than one distinct
non-null year the pipeline errors with a year-mismatch listing the
years and produces no report; with none it errors with no-valid-year;
with exactly one year `y` it produces the report computed from the
table filtered to `y`. -/
theorem c8_year_gate (files : List FileInput) (subs : List Submission)
    (hload : loadAndCombine files = .ok subs) :
    (1 < (distinctYears (preprocess subs)).length →
        generateReport files
          = .error (.yearMismatch (distinctYears (preprocess subs))))
    ∧ (distinctYears (preprocess subs) = [] →
        generateReport files = .error .noValidYear)
    ∧ ∀ y, distinctYears (preprocess subs) = [y] →
        generateReport files
          = .ok { year := y
                  table := filterYear y (preprocess subs)
                  stats := calculateStatistics (filterYear y (preprocess subs))
                  gCounts := genreCounts (filterYear y (preprocess subs)) } := by
  refine ⟨?_, ?_, ?_⟩
  · intro hlen
    cases hdy : distinctYears (preprocess subs) with
    | nil => rw [hdy] at hlen; cases hlen
    | cons y1 ys =>
      cases ys with
      | nil => rw [hdy] at hlen; simp at hlen
      | cons y2 ys2 =>
        simp only [generateReport, hload, validateYear, hdy]
  · intro hdy
    simp only [generateReport, hload, validateYear, hdy]
  · intro y hdy
    simp only [generateReport, hload, validateYear, hdy]

/-- Witness for C8, single-year branch: one file dated 2023 yields the
report of the 2023-filtered table. -/
theorem c8_year_gate_witness :
    generateReport [c8File]
      = .ok { year := 2023
              table := filterYear 2023 (preprocess [{ scnA with username := "A" }])
              stats := calculateStatistics
                (filterYear 2023 (preprocess [{ scnA with username := "A" }]))
              gCounts := genreCounts
                (filterYear 2023 (preprocess [{ scnA with username := "A" }])) } := by
  have h := c8_year_gate [c8File] [{ scnA with username := "A" }] (by rfl)
  exact h.2.2 2023 (by decide)

/-! ### Claim C9 -/

theorem loadFiles_ok_shapes {files : List FileInput} {subs : List Submission}
    (h : loadFiles files = .ok subs) :
    ∀ f ∈ files, ∃ rs, f.content = .records rs := by
  induction files generalizing subs with
  | nil =>
    intro f hf
    cases hf
  | cons g gs ih =>
    intro f hf
    rw [loadFiles] at h
    by_cases hu : g.username = ""
    · rw [if_pos hu] at h
      cases h
    · rw [if_neg hu] at h
      cases hg : g.content with
      | malformed =>
        rw [hg] at h
        cases h
      | nonList =>
        rw [hg] at h
        cases h
      | records rs =>
        rw [hg] at h
        rcases List.mem_cons.mp hf with hf | hf
        · exact ⟨rs, hf ▸ hg⟩
        · cases hrec : loadFiles gs with
          | error e =>
            rw [hrec] at h
            cases h
          | ok rest => exact ih hrec f hf

/-- C9: one malformed or non-list file in the batch aborts the whole
ingestion before any aggregation: `load_and_combine_data` returns an
error (no combined rows at all, from any file) and the pipeline
produces no report. -/
theorem c9_batch_abort (files : List FileInput)
    (hbad : ∃ f ∈ files, f.content = .malformed ∨ f.content = .nonList) :
    (∃ e, loadAndCombine files = .error e)
    ∧ ∃ e, generateReport files = .error e := by
  have hload : ∃ e, loadAndCombine files = .error e := by
    cases hlf : loadFiles files with
    | error e =>
      refine ⟨e, ?_⟩
      simp only [loadAndCombine, hlf]
    | ok subs =>
      obtain ⟨f, hf, hc⟩ := hbad
      obtain ⟨rs, hrs⟩ := loadFiles_ok_shapes hlf f hf
      rcases hc with hc | hc <;> rw [hc] at hrs <;> cases hrs
  obtain ⟨e, he⟩ := hload
  refine ⟨⟨e, he⟩, e, ?_⟩
  simp only [generateReport, he]

/-- Witness for C9: a batch of one valid and one malformed file aborts
with no combined data and no report. -/
theorem c9_batch_abort_witness :
    (∃ e, loadAndCombine [c8File, c9Bad] = .error e)
    ∧ ∃ e, generateReport [c8File, c9Bad] = .error e :=
  c9_batch_abort [c8File, c9Bad] ⟨c9Bad, by decide, Or.inl rfl⟩

/-! ### Claim C6 -/

theorem valueCounts_entry {l : List String} {p : String × Nat}
    (h : p ∈ valueCounts l) : p.2 = l.count p.1 := by
  have h2 : p ∈ l.dedup.map (fun v => (v, l.count v)) :=
    (List.perm_insertionSort _ _).mem_iff.mp h
  obtain ⟨v, _, rfl⟩ := List.mem_map.mp h2
  rfl

theorem mem_valueCounts_keys {l : List String} {g : String} :
    g ∈ (valueCounts l).map (fun p => p.1) ↔ g ∈ l := by
  have hperm : ((valueCounts l).map (fun p => p.1)).Perm
      ((l.dedup.map (fun v => (v, l.count v))).map (fun p => p.1)) :=
    (List.perm_insertionSort _ _).map _
  rw [hperm.mem_iff, List.map_map]
  have : ((fun p : String × Nat => p.1) ∘ fun v => (v, l.count v)) = id := rfl
  rw [this, List.map_id, List.mem_dedup]

theorem countOf_valueCounts (l : List String) (g : String) :
    countOf (valueCounts l) g = l.count g := by
  unfold countOf
  cases hf : (valueCounts l).find? (fun p => p.1 = g) with
  | none =>
    rw [List.find?_eq_none] at hf
    have hg : ¬ g ∈ l := by
      rw [← mem_valueCounts_keys]
      intro hmem
      obtain ⟨p, hp, hpg⟩ := List.mem_map.mp hmem
      exact hf p hp (by simpa using hpg)
    simp [List.count_eq_zero.mpr hg]
  | some p =>
    have hpg : p.1 = g := by simpa using List.find?_some hf
    have hp : p ∈ valueCounts l := List.mem_of_find?_eq_some hf
    simp [valueCounts_entry hp, hpg]

/-- C6 corrected: the genre frequency table of `calculate_statistics`
counts the multiset of all non-null genre values pooled from both genre
slots of the year-filtered table, with NO placeholder exclusion: the
placeholder sentinels are counted like any other value (the placeholder
filter exists only in the compatibility engine). -/
theorem c6_genre_counts_amended (t : List URow) (g : String) :
    countOf (genreCounts t) g = (pooledGenres t).count g
    ∧ (g ∈ (genreCounts t).map (fun p => p.1) ↔ g ∈ pooledGenres t) :=
  ⟨countOf_valueCounts (pooledGenres t) g, mem_valueCounts_keys⟩

/-- Counterexample to C6 as stated: on a table whose only row is tagged
with the placeholder "Genre 1" and with "Rock", the statistics engine's
genre table contains the placeholder and counts 2 distinct genres,
whereas excluding placeholder sentinels would leave only "Rock". -/
theorem c6_genre_counts_counterexample :
    "Genre 1" ∈ (genreCounts [c6Row]).map (fun p => p.1)
    ∧ (calculateStatistics [c6Row]).uniqueGenres = 2 := by
  constructor
  · decide
  · decide

/-! ### Claim C7 -/

/-- C7 corrected: `unique_users` of the statistics engine is the
`nunique` of the `username` column of the deduplicated year-filtered
table, i.e. the number of distinct usernames among the representative
(first-encountered) submissions whose representative year survives the
filter — not the number of all contributing users. -/
theorem c7_unique_users_amended (subs : List Submission) (y : Int) :
    (calculateStatistics (filterYear y (preprocess subs))).uniqueUsers
      = (((firstOccurrences subs).filter
            (fun s => s.releaseDate.map (fun d => d.year) = some y)).map
          (fun s => s.username)).toFinset.card := by
  have h1 : (filterYear y (preprocess subs)).map (fun r => r.username)
      = ((List.insertionSort rowLE (unifiedRows subs)).filter
          (fun r => r.year = some y)).map (fun r => r.username) :=
    numberRows_filter_map (fun r => r.username) (fun r => decide (r.year = some y))
      (fun r k => rfl) (fun r k => rfl) 1 _
  have h2 : (((List.insertionSort rowLE (unifiedRows subs)).filter
      (fun r => r.year = some y)).map (fun r => r.username)).Perm
      (((unifiedRows subs).filter (fun r => r.year = some y)).map
        (fun r => r.username)) :=
    ((List.perm_insertionSort rowLE (unifiedRows subs)).filter _).map _
  have h3 : ((unifiedRows subs).filter (fun r => r.year = some y)).map
      (fun r => r.username)
      = ((firstOccurrences subs).filter
          (fun s => s.releaseDate.map (fun d => d.year) = some y)).map
        (fun s => s.username) := by
    unfold unifiedRows
    rw [List.filter_map, List.map_map]
    rfl
  calc (calculateStatistics (filterYear y (preprocess subs))).uniqueUsers
      = ((filterYear y (preprocess subs)).map (fun r => r.username)).toFinset.card := rfl
    _ = (((List.insertionSort rowLE (unifiedRows subs)).filter
          (fun r => r.year = some y)).map (fun r => r.username)).toFinset.card := by
        rw [h1]
    _ = (((unifiedRows subs).filter (fun r => r.year = some y)).map
          (fun r => r.username)).toFinset.card := by
        rw [List.toFinset_eq_of_perm _ _ h2]
    _ = _ := by rw [h3]

/-- Counterexample to C7 as stated: in the scenario both users A and B
contributed the single surviving album X, so the claimed count of
distinct contributing users is 2, but the engine reports 1 (only the
representative submitter's username survives deduplication). -/
theorem c7_unique_users_counterexample :
    (calculateStatistics (filterYear 2023 (preprocess scnSubs))).uniqueUsers = 1
    ∧ ((scnSubs.filter (fun s =>
          (filterYear 2023 (preprocess scnSubs)).any (fun r => r.album = s.album))).map
        (fun s => s.username)).toFinset.card = 2 := by
  constructor
  · decide
  · decide

/-! ### Helper lemmas: rounding and percentages -/

theorem rhe_nonneg {x : ℚ} (hx : 0 ≤ x) : 0 ≤ rhe x := by
  unfold rhe
  have h0 : (0 : Int) ≤ ⌊x⌋ := Int.floor_nonneg.mpr hx
  split_ifs <;> omega

theorem round1_nonneg {x : ℚ} (hx : 0 ≤ x) : 0 ≤ round1 x := by
  unfold round1
  have h10 : (0 : ℚ) ≤ 10 * x := by linarith
  have := rhe_nonneg h10
  have hcast : (0 : ℚ) ≤ (rhe (10 * x) : ℚ) := by exact_mod_cast this
  positivity

theorem pct_nonneg (df : List URow) (u g : String) : 0 ≤ pct df u g := by
  unfold pct
  split_ifs with h
  · apply round1_nonneg
    have h1 : (0 : ℚ) ≤ (gCount df u g : ℚ) := Nat.cast_nonneg _
    have h2 : (0 : ℚ) ≤ (gTotal df u : ℚ) := Nat.cast_nonneg _
    positivity
  · exact le_refl 0

/-! ### Helper lemmas: rank weights under well-formed ranks -/

theorem init_le_foldl_max (l : List Int) (x : Int) : x ≤ l.foldl max x := by
  induction l generalizing x with
  | nil => exact le_refl x
  | cons y l ih => exact le_trans (le_max_left x y) (ih (max x y))

theorem mem_le_foldl_max (l : List Int) (x a : Int) (h : a ∈ l) : a ≤ l.foldl max x := by
  induction l generalizing x with
  | nil => cases h
  | cons y l ih =>
    rw [List.foldl_cons]
    rcases List.mem_cons.mp h with h | h
    · subst h
      exact le_trans (le_max_right x a) (init_le_foldl_max l (max x a))
    · exact ih (max x y) h

theorem rank_le_maxRank {df : List URow} {t : String × String × Int}
    (ht : t ∈ userGenrePairs df) : t.2.2 ≤ maxRank df := by
  have hmem : t.2.2 ∈ (userGenrePairs df).map (fun t => t.2.2) :=
    List.mem_map_of_mem _ ht
  unfold maxRank
  cases hl : (userGenrePairs df).map (fun t => t.2.2) with
  | nil =>
    rw [hl] at hmem
    cases hmem
  | cons r rs =>
    rw [hl] at hmem
    rcases List.mem_cons.mp hmem with h | h
    · exact h ▸ init_le_foldl_max rs r
    · exact mem_le_foldl_max rs r _ h

theorem ranksWF_tuples {df : List URow} (H : ranksWF df) :
    ∀ t ∈ userGenrePairs df, 1 ≤ t.2.2 := by
  intro t ht
  obtain ⟨r, hr, ht2⟩ := List.mem_flatMap.mp ht
  obtain ⟨c, hc, ht3⟩ := List.mem_flatMap.mp ht2
  obtain ⟨g, _, rfl⟩ := List.mem_map.mp ht3
  exact H r hr c hc

theorem rankWeight_pos {df : List URow} (H : ranksWF df)
    {t : String × String × Int} (ht : t ∈ userGenrePairs df) :
    0 < rankWeight df t.2.2 := by
  have h1 : 1 ≤ t.2.2 := ranksWF_tuples H t ht
  have hM : 1 ≤ maxRank df := le_trans h1 (rank_le_maxRank ht)
  unfold rankWeight
  have hden : (0 : ℚ) < (maxRank df : ℚ) := by exact_mod_cast hM
  have hle : (t.2.2 : ℚ) ≤ (maxRank df : ℚ) := by exact_mod_cast rank_le_maxRank ht
  have hnum : (0 : ℚ) < (maxRank df : ℚ) - (t.2.2 : ℚ) + 1 := by linarith
  exact div_pos hnum hden

theorem wpct_nonneg {df : List URow} (H : ranksWF df) (u g : String) :
    0 ≤ wpct df u g := by
  unfold wpct
  split_ifs with h
  · apply round1_nonneg
    have hwc : 0 ≤ gWeightedCount df u g := by
      apply List.sum_nonneg
      intro x hx
      obtain ⟨t, ht, rfl⟩ := List.mem_map.mp hx
      exact (rankWeight_pos H (List.mem_of_mem_filter ht)).le
    have hne : ((userGenrePairs df).filter (fun t => t.1 = u ∧ t.2.1 = g)) ≠ [] := by
      intro hnil
      rw [gCount, hnil] at h
      cases h
    obtain ⟨t₀, ht₀⟩ := List.exists_mem_of_ne_nil _ hne
    have ht₀u : t₀ ∈ (userGenrePairs df).filter (fun t => t.1 = u) := by
      have hm := List.mem_filter.mp ht₀
      refine List.mem_filter.mpr ⟨hm.1, ?_⟩
      have := hm.2
      simp only [decide_eq_true_eq] at this ⊢
      exact this.1
    have hwt : 0 < gWeightedTotal df u := by
      apply List.sum_pos
      · intro x hx
        obtain ⟨t, ht, rfl⟩ := List.mem_map.mp hx
        exact rankWeight_pos H (List.mem_of_mem_filter ht)
      · exact List.ne_nil_of_mem (List.mem_map_of_mem _ ht₀u)
    positivity
  · exact le_refl 0

/-! ### Helper lemmas: cosine similarity bounds -/

theorem rat_cauchy_schwarz (s : Finset String) (f g : String → ℚ) :
    ((∑ x ∈ s, f x * g x : ℚ) : ℝ)
      ≤ Real.sqrt ((∑ x ∈ s, f x * f x : ℚ) : ℝ)
        * Real.sqrt ((∑ x ∈ s, g x * g x : ℚ) : ℝ) := by
  have h := Real.sum_mul_le_sqrt_mul_sqrt s (fun x => (f x : ℝ)) (fun x => (g x : ℝ))
  have e1 : ((∑ x ∈ s, f x * g x : ℚ) : ℝ) = ∑ x ∈ s, (f x : ℝ) * (g x : ℝ) := by
    push_cast
    rfl
  have e2 : ((∑ x ∈ s, f x * f x : ℚ) : ℝ) = ∑ x ∈ s, (f x : ℝ) ^ 2 := by
    push_cast
    exact Finset.sum_congr rfl (fun x _ => (pow_two _).symm)
  have e3 : ((∑ x ∈ s, g x * g x : ℚ) : ℝ) = ∑ x ∈ s, (g x : ℝ) ^ 2 := by
    push_cast
    exact Finset.sum_congr rfl (fun x _ => (pow_two _).symm)
  rw [e1, e2, e3]
  exact h

theorem cosInterp_bounds (d s1 s2 : ℚ) (hd : 0 ≤ d)
    (hcs : (d : ℝ) ≤ Real.sqrt (s1 : ℝ) * Real.sqrt (s2 : ℝ)) :
    0 ≤ cosInterp d s1 s2 ∧ cosInterp d s1 s2 ≤ 1 := by
  unfold cosInterp
  split_ifs with h
  · have hpos : 0 < Real.sqrt (s1 : ℝ) * Real.sqrt (s2 : ℝ) := mul_pos h.1 h.2
    constructor
    · exact div_nonneg (by exact_mod_cast hd) hpos.le
    · rw [div_le_one hpos]
      exact hcs
  · norm_num

theorem genreSim_bounds (df : List URow) (u1 u2 : String) :
    0 ≤ genreSimR (mkPair df u1 u2) ∧ genreSimR (mkPair df u1 u2) ≤ 1 := by
  apply cosInterp_bounds
  · exact Finset.sum_nonneg fun g _ =>
      mul_nonneg (pct_nonneg df u1 g) (pct_nonneg df u2 g)
  · exact rat_cauchy_schwarz (genreAxis df) (pct df u1) (pct df u2)

theorem weightedSim_bounds {df : List URow} (H : ranksWF df) (u1 u2 : String) :
    0 ≤ weightedSimR (mkPair df u1 u2) ∧ weightedSimR (mkPair df u1 u2) ≤ 1 := by
  apply cosInterp_bounds
  · exact Finset.sum_nonneg fun g _ =>
      mul_nonneg (wpct_nonneg H u1 g) (wpct_nonneg H u2 g)
  · exact rat_cauchy_schwarz (genreAxis df) (wpct df u1) (wpct df u2)

/-! ### Helper lemmas: Jaccard bounds and exact values -/

theorem jaccardQ_bounds (A B : Finset String) :
    0 ≤ ((A ∩ B).card : ℚ) / ((max 1 (A ∪ B).card : Nat) : ℚ)
    ∧ ((A ∩ B).card : ℚ) / ((max 1 (A ∪ B).card : Nat) : ℚ) ≤ 1 := by
  have hden : (0 : ℚ) < ((max 1 (A ∪ B).card : Nat) : ℚ) := by
    have : 0 < max 1 (A ∪ B).card := lt_of_lt_of_le one_pos (le_max_left 1 _)
    exact_mod_cast this
  constructor
  · exact div_nonneg (Nat.cast_nonneg _) hden.le
  · rw [div_le_one hden]
    have hle : (A ∩ B).card ≤ max 1 (A ∪ B).card :=
      le_trans (Finset.card_le_card Finset.inter_subset_union) (le_max_right 1 _)
    exact_mod_cast hle

theorem absenceSim_bounds (df : List URow) (u1 u2 : String) :
    0 ≤ absenceSimOf df u1 u2 ∧ absenceSimOf df u1 u2 ≤ 1 := by
  unfold absenceSimOf
  split_ifs with h
  · exact jaccardQ_bounds (avoided df u1) (avoided df u2)
  · norm_num

theorem artistSim_bounds (df : List URow) (u1 u2 : String) :
    0 ≤ artistSimOf df u1 u2 ∧ artistSimOf df u1 u2 ≤ 1 := by
  unfold artistSimOf
  split_ifs with h
  · exact jaccardQ_bounds (userArtists df u1) (userArtists df u2)
  · norm_num

theorem absenceSim_eq_one (df : List URow) (u1 u2 : String)
    (heq : avoided df u1 = avoided df u2) (hne : (avoided df u1).Nonempty) :
    absenceSimOf df u1 u2 = 1 := by
  have hcard : 0 < (avoided df u1).card := Finset.card_pos.mpr hne
  have hvalid : ¬ validGenres df = ∅ := by
    intro hv
    have hsub : avoided df u1 ⊆ validGenres df := Finset.sdiff_subset
    rw [hv, Finset.subset_empty] at hsub
    rw [hsub] at hcard
    cases hcard
  unfold absenceSimOf
  rw [if_pos ⟨hvalid, hcard, heq ▸ hcard⟩, ← heq, Finset.inter_self, Finset.union_self,
    Nat.max_eq_right hcard]
  exact div_self (ne_of_gt (by exact_mod_cast hcard))

theorem absenceSim_eq_zero (df : List URow) (u1 u2 : String)
    (hdisj : Disjoint (avoided df u1) (avoided df u2)) :
    absenceSimOf df u1 u2 = 0 := by
  unfold absenceSimOf
  split_ifs with h
  · rw [Finset.disjoint_iff_inter_eq_empty.mp hdisj]
    simp
  · rfl

theorem artistSim_eq_one (df : List URow) (u1 u2 : String)
    (heq : userArtists df u1 = userArtists df u2)
    (hne : (userArtists df u1).Nonempty) :
    artistSimOf df u1 u2 = 1 := by
  have hcard : 0 < (userArtists df u1).card := Finset.card_pos.mpr hne
  have hne2 : ¬ userArtists df u1 = ∅ := Finset.nonempty_iff_ne_empty.mp hne
  unfold artistSimOf
  rw [if_pos (Or.inl hne2), ← heq, Finset.inter_self, Finset.union_self,
    Nat.max_eq_right hcard]
  exact div_self (ne_of_gt (by exact_mod_cast hcard))

theorem artistSim_eq_zero (df : List URow) (u1 u2 : String)
    (hdisj : Disjoint (userArtists df u1) (userArtists df u2)) :
    artistSimOf df u1 u2 = 0 := by
  unfold artistSimOf
  split_ifs with h
  · rw [Finset.disjoint_iff_inter_eq_empty.mp hdisj]
    simp
  · rfl

theorem combined_bounds {df : List URow} (H : ranksWF df) (u1 u2 : String) :
    0 ≤ combinedR (mkPair df u1 u2) ∧ combinedR (mkPair df u1 u2) ≤ 1 := by
  obtain ⟨hg0, hg1⟩ := genreSim_bounds df u1 u2
  obtain ⟨hw0, hw1⟩ := weightedSim_bounds H u1 u2
  obtain ⟨ha0, ha1⟩ := absenceSim_bounds df u1 u2
  obtain ⟨hr0, hr1⟩ := artistSim_bounds df u1 u2
  have ha0R : (0 : ℝ) ≤ ((mkPair df u1 u2).absence : ℝ) := by exact_mod_cast ha0
  have ha1R : ((mkPair df u1 u2).absence : ℝ) ≤ 1 := by exact_mod_cast ha1
  have hr0R : (0 : ℝ) ≤ ((mkPair df u1 u2).artist : ℝ) := by exact_mod_cast hr0
  have hr1R : ((mkPair df u1 u2).artist : ℝ) ≤ 1 := by exact_mod_cast hr1
  unfold combinedR
  split_ifs with h
  · constructor <;> linarith
  · constructor <;> linarith

/-! ### Claim C3 -/

theorem mem_validGenres (df : List URow) (g : String) :
    g ∈ validGenres df
      ↔ ¬ g ∈ PLACEHOLDER_GENRES ∧ 2 ≤ (pooledNP df).count g := by
  constructor
  · intro hm
    obtain ⟨hmem, hcount⟩ := Finset.mem_filter.mp hm
    have hmem2 : g ∈ pooledNP df := List.mem_toFinset.mp hmem
    have hnp : ¬ g ∈ PLACEHOLDER_GENRES := by
      have h2 := (List.mem_filter.mp hmem2).2
      simpa using h2
    exact ⟨hnp, hcount⟩
  · rintro ⟨hnp, hcount⟩
    have hpos : 0 < (pooledNP df).count g := lt_of_lt_of_le (by norm_num) hcount
    have hmem : g ∈ pooledNP df := List.count_pos_iff.mp hpos
    exact Finset.mem_filter.mpr ⟨List.mem_toFinset.mpr hmem, hcount⟩

/-- C3 corrected: the valid-genre set of the avoidance analysis is the
set of non-placeholder genres with at least 2 pooled genre-slot
occurrences in the year-filtered table — each slot counts separately,
so a genre written in both slots of a single album already qualifies;
and a genre with at most one pooled occurrence is never a member of any
user's avoided set. -/
theorem c3_valid_genres_amended (df : List URow) (g : String) :
    (g ∈ validGenres df
      ↔ ¬ g ∈ PLACEHOLDER_GENRES ∧ 2 ≤ (pooledNP df).count g)
    ∧ ((pooledNP df).count g ≤ 1 → ∀ u, ¬ g ∈ avoided df u) := by
  refine ⟨mem_validGenres df g, fun hle u hmem => ?_⟩
  have hvalid : g ∈ validGenres df := (Finset.mem_sdiff.mp hmem).1
  have hcount := ((mem_validGenres df g).mp hvalid).2
  omega

/-- Counterexample to C3 as stated: "ShoeGaze" appears in exactly one
distinct album of `c3Df` (in both of its genre slots), yet it is a
member of user B's avoided set — so the valid set is not "genres in at
least 2 distinct albums", and a single-album genre can be avoided. -/
theorem c3_valid_genres_counterexample :
    (c3Df.filter (fun r => r.genre1 = some "ShoeGaze" ∨ r.genre2 = some "ShoeGaze")).length = 1
    ∧ "ShoeGaze" ∈ avoided c3Df "B" := by
  constructor
  · decide
  · decide

/-- Witness for the amended C3: "Rock" has a single pooled occurrence
in `c3Df` and is in no user's avoided set. -/
theorem c3_valid_genres_amended_witness : ¬ "Rock" ∈ avoided c3Df "A" :=
  (c3_valid_genres_amended c3Df "Rock").2 (by decide) "A"

/-! ### Claim C5 -/

/-- C5: on any table whose recorded ranks are well-formed (1-based, as
the data model specifies), every scored user pair's four component
similarities lie in [0,1]; both Jaccard components are exactly 1 on
identical non-empty sets and exactly 0 on disjoint sets (one of them
non-empty), per the engine's zero-handling. -/
theorem c5_similarity_bounds (df : List URow) (H : ranksWF df) :
    ∀ u1 u2, (u1, u2) ∈ userPairsOf (usersOf df) →
      (0 ≤ genreSimR (mkPair df u1 u2) ∧ genreSimR (mkPair df u1 u2) ≤ 1)
      ∧ (0 ≤ weightedSimR (mkPair df u1 u2) ∧ weightedSimR (mkPair df u1 u2) ≤ 1)
      ∧ (0 ≤ (mkPair df u1 u2).absence ∧ (mkPair df u1 u2).absence ≤ 1)
      ∧ (0 ≤ (mkPair df u1 u2).artist ∧ (mkPair df u1 u2).artist ≤ 1)
      ∧ (avoided df u1 = avoided df u2 → (avoided df u1).Nonempty →
          (mkPair df u1 u2).absence = 1)
      ∧ (Disjoint (avoided df u1) (avoided df u2) →
          ((avoided df u1).Nonempty ∨ (avoided df u2).Nonempty) →
          (mkPair df u1 u2).absence = 0)
      ∧ (userArtists df u1 = userArtists df u2 → (userArtists df u1).Nonempty →
          (mkPair df u1 u2).artist = 1)
      ∧ (Disjoint (userArtists df u1) (userArtists df u2) →
          ((userArtists df u1).Nonempty ∨ (userArtists df u2).Nonempty) →
          (mkPair df u1 u2).artist = 0) := by
  intro u1 u2 _
  exact ⟨genreSim_bounds df u1 u2, weightedSim_bounds H u1 u2,
    absenceSim_bounds df u1 u2, artistSim_bounds df u1 u2,
    fun heq hne => absenceSim_eq_one df u1 u2 heq hne,
    fun hd _ => absenceSim_eq_zero df u1 u2 hd,
    fun heq hne => artistSim_eq_one df u1 u2 heq hne,
    fun hd _ => artistSim_eq_zero df u1 u2 hd⟩

/-- Witness for C5 at the concrete pair (A, B) of `c45Df`: the genre
cosine similarity is within bounds and the artist Jaccard similarity is
exactly 1 (identical non-empty artist sets). -/
theorem c5_similarity_bounds_witness :
    (0 ≤ genreSimR (mkPair c45Df "A" "B") ∧ genreSimR (mkPair c45Df "A" "B") ≤ 1)
    ∧ (mkPair c45Df "A" "B").artist = 1 := by
  have h := c5_similarity_bounds c45Df (by unfold ranksWF; decide) "A" "B" (by decide)
  exact ⟨h.1, h.2.2.2.2.2.2.1 (by decide) ⟨"P", by decide⟩⟩

/-! ### Claim C4 -/

/-- C4: on any table with well-formed 1-based ranks, every scored user
pair's `combined_score` is the conditional weighted sum of the four
components — weights (0.30, 0.40, 0.05, 0.25) when
`absence_similarity < 0.1` and `artist_similarity > 0`, else
(0.25, 0.35, 0.20, 0.20) — each weight set sums to 1, and the combined
score lies in [0,1]. -/
theorem c4_combined_score (df : List URow) (H : ranksWF df) :
    ∀ u1 u2, (u1, u2) ∈ userPairsOf (usersOf df) →
      (combinedR (mkPair df u1 u2)
          = if (mkPair df u1 u2).absence < 1/10 ∧ 0 < (mkPair df u1 u2).artist then
              0.30 * genreSimR (mkPair df u1 u2) + 0.40 * weightedSimR (mkPair df u1 u2)
                + 0.05 * ((mkPair df u1 u2).absence : ℝ)
                + 0.25 * ((mkPair df u1 u2).artist : ℝ)
            else
              0.25 * genreSimR (mkPair df u1 u2) + 0.35 * weightedSimR (mkPair df u1 u2)
                + 0.20 * ((mkPair df u1 u2).absence : ℝ)
                + 0.20 * ((mkPair df u1 u2).artist : ℝ))
      ∧ ((0.30 : ℝ) + 0.40 + 0.05 + 0.25 = 1 ∧ (0.25 : ℝ) + 0.35 + 0.20 + 0.20 = 1)
      ∧ 0 ≤ combinedR (mkPair df u1 u2) ∧ combinedR (mkPair df u1 u2) ≤ 1 := by
  intro u1 u2 _
  refine ⟨rfl, ⟨by norm_num, by norm_num⟩, combined_bounds H u1 u2⟩

/-- Witness for C4 at the concrete pair (A, B) of `c45Df`. -/
theorem c4_combined_score_witness :
    0 ≤ combinedR (mkPair c45Df "A" "B") ∧ combinedR (mkPair c45Df "A" "B") ≤ 1 := by
  have h := c4_combined_score c45Df (by unfold ranksWF; decide) "A" "B" (by decide)
  exact h.2.2

end SuShe
